import Mathlib

/-!
# Verification of the meshvox voxelizer against its specification

This file gives a shallow embedding of the meshvox crate (src/vector.rs,
src/sat.rs, src/voxelize.rs) and settles the specification claims about it.

Modelling conventions:
* The crate is generic over a floating-point scalar `T: Float`; the embedding
  instantiates the scalar at `ℚ` (exact real arithmetic on the operations the
  code performs: `+ - * /`, `abs`, `min`/`max`, comparisons, `floor`/`ceil`).
  `T::epsilon()` becomes an explicit parameter (`1 / 2 ^ 52` mirrors `f64`).
* Rust panics (`panic!`, index out of bounds, `to_i32().expect(..)`) are
  modelled by `Except String`.
* `HashSet<[i32; 3]>` becomes `Finset (ℤ × ℤ × ℤ)`; operations that iterate a
  hash set in unspecified order (`vertices_indices`, `point_cloud`) are
  modelled on an enumeration list of the set, so theorems quantify over the
  iteration order.  Grid coordinates are mathematical integers; the i32 range
  checks performed by `to_i32().expect(..)` are modelled explicitly.
-/

attribute [local semireducible] Rat.add Rat.mul Rat.inv Rat.sub

set_option maxRecDepth 40000

namespace Meshvox

/-- Component type of grid coordinates: `[i32; 3]` keys of the occupancy set. -/
abbrev Cell := ℤ × ℤ × ℤ

/-- src/vector.rs: `Vector3<T>`. -/
structure Vector3 (α : Type) where
  x : α
  y : α
  z : α
deriving DecidableEq

namespace Vector3

/-- src/vector.rs: `impl Add for Vector3`. -/
def add {α : Type} [Add α] (a b : Vector3 α) : Vector3 α :=
  ⟨a.x + b.x, a.y + b.y, a.z + b.z⟩

/-- src/vector.rs: `impl Sub for Vector3`. -/
def sub {α : Type} [Sub α] (a b : Vector3 α) : Vector3 α :=
  ⟨a.x - b.x, a.y - b.y, a.z - b.z⟩

/-- src/vector.rs: `Vector3::dot`. -/
def dot (a b : Vector3 ℚ) : ℚ := a.x * b.x + a.y * b.y + a.z * b.z

/-- src/vector.rs: `Vector3::cross`. -/
def cross (a b : Vector3 ℚ) : Vector3 ℚ :=
  ⟨a.y * b.z - a.z * b.y, a.z * b.x - a.x * b.z, a.x * b.y - a.y * b.x⟩

/-- src/vector.rs: `impl Mul<T> for Vector3` (componentwise scaling). -/
def scale (a : Vector3 ℚ) (r : ℚ) : Vector3 ℚ := ⟨a.x * r, a.y * r, a.z * r⟩

/-- src/vector.rs: `impl Div<T> for Vector3` (componentwise division). -/
def divScalar (a : Vector3 ℚ) (r : ℚ) : Vector3 ℚ := ⟨a.x / r, a.y / r, a.z / r⟩

/-- src/vector.rs: `Vector3::x_axis`. -/
def x_axis : Vector3 ℚ := ⟨1, 0, 0⟩

/-- src/vector.rs: `Vector3::y_axis`. -/
def y_axis : Vector3 ℚ := ⟨0, 1, 0⟩

/-- src/vector.rs: `Vector3::z_axis`. -/
def z_axis : Vector3 ℚ := ⟨0, 0, 1⟩

end Vector3

/-- src/voxelize.rs: `AABB<T>` (also used at `T = i32`, modelled by `ℤ`). -/
structure AABB (α : Type) where
  min : Vector3 α
  max : Vector3 α
deriving DecidableEq

/-- src/voxelize.rs: `Triangle<T>`: three points and the precomputed AABB. -/
structure Triangle where
  p0 : Vector3 ℚ
  p1 : Vector3 ℚ
  p2 : Vector3 ℚ
  aabb : AABB ℚ
deriving DecidableEq

/-- src/voxelize.rs: `Triangle::new`: the aabb is the componentwise min/max of
the three points. -/
def Triangle.new (q1 q2 q3 : Vector3 ℚ) : Triangle :=
  { p0 := q1, p1 := q2, p2 := q3,
    aabb := { min := ⟨min (min q1.x q2.x) q3.x, min (min q1.y q2.y) q3.y,
                      min (min q1.z q2.z) q3.z⟩,
              max := ⟨max (max q1.x q2.x) q3.x, max (max q1.y q2.y) q3.y,
                      max (max q1.z q2.z) q3.z⟩ } }

/-- src/sat.rs: `plane_aabb_intersects`: the triangle-plane-normal axis test. -/
def plane_aabb_intersects (t : Triangle) (aabb : AABB ℚ) : Bool :=
  let normal := (t.p1.sub t.p0).cross (t.p2.sub t.p0)
  let plane_point := t.p0
  let d := -(normal.x * plane_point.x + normal.y * plane_point.y + normal.z * plane_point.z)
  let c := (aabb.max.add aabb.min).divScalar 2
  let h := (aabb.max.sub aabb.min).divScalar 2
  let e := h.x * |normal.x| + h.y * |normal.y| + h.z * |normal.z|
  let s := c.dot normal + d
  !(decide (s - e > 0) || decide (s + e < 0))

/-- src/sat.rs: `tri_edge_aabb_intersects`: the nine edge-cross-axis tests. -/
def tri_edge_aabb_intersects (t : Triangle) (aabb : AABB ℚ) : Bool :=
  let c := (aabb.max.add aabb.min).divScalar 2
  let h := (aabb.max.sub aabb.min).divScalar 2
  let v0 := t.p0.sub c
  let v1 := t.p1.sub c
  let v2 := t.p2.sub c
  let fs := [v1.sub v0, v2.sub v1, v0.sub v2]
  let es := [Vector3.x_axis, Vector3.y_axis, Vector3.z_axis]
  es.all fun ei => fs.all fun fj =>
    let a := ei.cross fj
    let q0 := a.dot v0
    let q1 := a.dot v1
    let q2 := a.dot v2
    let r := h.x * |a.x| + h.y * |a.y| + h.z * |a.z|
    !(decide (min (min q0 q1) q2 > r) || decide (max (max q0 q1) q2 < -r))

/-- src/sat.rs: `triangle_aabb_intersects` (the 3 box-axis tests are commented
out in the source; 1 plane test plus 9 edge tests remain). -/
def triangle_aabb_intersects (t : Triangle) (aabb : AABB ℚ) : Bool :=
  plane_aabb_intersects t aabb && tri_edge_aabb_intersects t aabb

/-- src/voxelize.rs: `to_grid_step_floor` without the i32 conversion
(`to_i32().expect(..)` is modelled separately by `i32ok`). -/
def to_grid_step_floor (value step : ℚ) : ℤ := ⌊value / step⌋

/-- src/voxelize.rs: `to_grid_step_ceil` without the i32 conversion. -/
def to_grid_step_ceil (value step : ℚ) : ℤ := ⌈value / step⌉

/-- src/voxelize.rs: `vector_to_grid_step_floor`. -/
def vector_to_grid_step_floor (v : Vector3 ℚ) (step : ℚ) : Vector3 ℤ :=
  ⟨to_grid_step_floor v.x step, to_grid_step_floor v.y step, to_grid_step_floor v.z step⟩

/-- src/voxelize.rs: `vector_to_grid_step_ceil`. -/
def vector_to_grid_step_ceil (v : Vector3 ℚ) (step : ℚ) : Vector3 ℤ :=
  ⟨to_grid_step_ceil v.x step, to_grid_step_ceil v.y step, to_grid_step_ceil v.z step⟩

/-- src/voxelize.rs: `Triangle::grid_aabb`: floor of the AABB min, ceil of the
AABB max, divided by the step. -/
def Triangle.grid_aabb (t : Triangle) (step : ℚ) : AABB ℤ :=
  { min := vector_to_grid_step_floor t.aabb.min step,
    max := vector_to_grid_step_ceil t.aabb.max step }

/-- Inclusive integer range `lo..=hi` as a list (a Rust `for v in lo..(hi+1)`
loop, empty when `hi < lo`). -/
def intRange (lo hi : ℤ) : List ℤ := (List.range (hi + 1 - lo).toNat).map (fun n => lo + n)

/-- src/voxelize.rs, `Triangle::voxelize` body: the epsilon-padded world box of
the cell `(i, j, k)`: minimum corner `(i,j,k) * step`, edge `step`, padded by
`eps` on both sides. -/
def cellBox (c : Cell) (step eps : ℚ) : AABB ℚ :=
  let mn := (Vector3.mk (c.1 : ℚ) (c.2.1 : ℚ) (c.2.2 : ℚ)).scale step
  let mx := mn.add ⟨step, step, step⟩
  { min := mn.sub ⟨eps, eps, eps⟩, max := mx.add ⟨eps, eps, eps⟩ }

/-- src/voxelize.rs, `Triangle::voxelize`: the innermost `k` loop.  The Bool
argument is the `intersects_pre` flag (declared OUTSIDE all three loops in the
source); `break` on a hit-to-miss transition resets it to `false` and abandons
the rest of the `k` range.  Returns the recorded cells and the flag value that
survives into the next loop iteration. -/
def kLoop (t : Triangle) (step eps : ℚ) (i j : ℤ) :
    List ℤ → Bool → List Cell × Bool
  | [], pre => ([], pre)
  | k :: rest, pre =>
    let hit := triangle_aabb_intersects t (cellBox (i, j, k) step eps)
    let cells := if hit then [(i, j, k)] else []
    if pre && !hit then (cells, false)
    else
      let (cs, p) := kLoop t step eps i j rest hit
      (cells ++ cs, p)

/-- src/voxelize.rs, `Triangle::voxelize`: the middle `j` loop, threading the
`intersects_pre` flag from one `k` column into the next. -/
def jLoop (t : Triangle) (step eps : ℚ) (i : ℤ) (ks : List ℤ) :
    List ℤ → Bool → List Cell × Bool
  | [], pre => ([], pre)
  | j :: rest, pre =>
    let (cs, p) := kLoop t step eps i j ks pre
    let (cs', p') := jLoop t step eps i ks rest p
    (cs ++ cs', p')

/-- src/voxelize.rs, `Triangle::voxelize`: the outer `i` loop. -/
def iLoop (t : Triangle) (step eps : ℚ) (js ks : List ℤ) :
    List ℤ → Bool → List Cell × Bool
  | [], pre => ([], pre)
  | i :: rest, pre =>
    let (cs, p) := jLoop t step eps i ks js pre
    let (cs', p') := iLoop t step eps js ks rest p
    (cs ++ cs', p')

/-- src/voxelize.rs: `Triangle::voxelize`: scan the inclusive grid range of
`grid_aabb`, with the early-exit `break` and the shared `intersects_pre` flag. -/
def Triangle.voxelize (t : Triangle) (step eps : ℚ) : List Cell :=
  let g := t.grid_aabb step
  (iLoop t step eps (intRange g.min.y g.max.y) (intRange g.min.z g.max.z)
    (intRange g.min.x g.max.x) false).1

/-- The i32 maximum, `i32::max_value()`. -/
def intMax : ℤ := 2147483647

/-- The i32 minimum, `i32::min_value()`. -/
def intMin : ℤ := -2147483648

/-- Whether an integer is representable as an i32 (`to_i32()` succeeds). -/
def i32ok (n : ℤ) : Bool := decide (intMin ≤ n ∧ n ≤ intMax)

/-- Whether all six grid-bound conversions of `Triangle::grid_aabb` fit in i32,
i.e. none of the `to_i32().expect("cannot convert to i32")` calls panics. -/
def gridOk (t : Triangle) (step : ℚ) : Bool :=
  i32ok (to_grid_step_floor t.aabb.min.x step) &&
  i32ok (to_grid_step_floor t.aabb.min.y step) &&
  i32ok (to_grid_step_floor t.aabb.min.z step) &&
  i32ok (to_grid_step_ceil t.aabb.max.x step) &&
  i32ok (to_grid_step_ceil t.aabb.max.y step) &&
  i32ok (to_grid_step_ceil t.aabb.max.z step)

/-- src/voxelize.rs: `Voxels<T>`: the occupancy set (a `HashSet<[i32; 3]>`,
modelled as a `Finset`) and the grid step. -/
structure Voxels where
  grid_positions : Finset Cell
  step : ℚ
deriving DecidableEq

/-- An `[T; 3]` vertex array element. -/
abbrev Vert := ℚ × ℚ × ℚ

/-- Vector3 from one vertex array entry (`Vector3::new(v[0], v[1], v[2])`). -/
def vecOf (p : Vert) : Vector3 ℚ := ⟨p.1, p.2.1, p.2.2⟩

/-- src/voxelize.rs, `Voxels::voxelize`: `indices.chunks(3)` together with the
`index[0]`, `index[1]`, `index[2]` accesses; a trailing chunk of fewer than 3
entries makes `index[1]` or `index[2]` panic, modelled by `none`. -/
def chunk3 : List ℕ → Option (List (ℕ × ℕ × ℕ))
  | [] => some []
  | a :: b :: c :: rest => (chunk3 rest).map (fun l => (a, b, c) :: l)
  | _ => none

/-- The triangle built from one face triple via `getD` lookups (equal to the
source's direct indexing whenever the indices are valid). -/
def triOf (vertices : List Vert) (f : ℕ × ℕ × ℕ) : Triangle :=
  Triangle.new (vecOf (vertices.getD f.1 (0, 0, 0)))
    (vecOf (vertices.getD f.2.1 (0, 0, 0))) (vecOf (vertices.getD f.2.2 (0, 0, 0)))

/-- src/voxelize.rs, `Voxels::voxelize`: the triangle-building loop; an
out-of-range face index is a Rust index-out-of-bounds panic, modelled as an
error. -/
def buildTris (vertices : List Vert) : List (ℕ × ℕ × ℕ) → Except String (List Triangle)
  | [] => .ok []
  | f :: fs =>
    match vertices[f.1]?, vertices[f.2.1]?, vertices[f.2.2]? with
    | some a, some b, some c =>
      (buildTris vertices fs).map
        (fun ts => Triangle.new (vecOf a) (vecOf b) (vecOf c) :: ts)
    | _, _, _ => .error "index out of bounds"

/-- src/voxelize.rs, `Voxels::voxelize`: the per-triangle voxelization loop;
a grid bound that does not fit in i32 is the `expect("cannot convert to i32")`
panic, modelled as an error. -/
def triCellsE (step eps : ℚ) : List Triangle → Except String (List Cell)
  | [] => .ok []
  | t :: ts =>
    if gridOk t step then
      (triCellsE step eps ts).map (fun cs => t.voxelize step eps ++ cs)
    else .error "cannot convert to i32"

/-- src/voxelize.rs: `Voxels::voxelize`.  `epsT` models `T::epsilon()`; the
SAT padding is `eps = T::epsilon() * 10` as in the source.  The fatal
`panic!("step should be positive value")` on `step <= T::epsilon()` and the
index/conversion panics are modelled by `Except.error`. -/
def voxelizeE (vertices : List Vert) (indices : List ℕ) (step epsT : ℚ) :
    Except String Voxels :=
  if step ≤ epsT then .error "step should be positive value"
  else
    match chunk3 indices with
    | none => .error "index out of bounds"
    | some faces =>
      match buildTris vertices faces with
      | .error e => .error e
      | .ok tris =>
        let eps := epsT * 10
        match triCellsE step eps tris with
        | .error e => .error e
        | .ok cells => .ok ⟨cells.toFinset, step⟩

/-- The occupancy set of a voxelization result (`∅` on a panic). -/
def occOf (r : Except String Voxels) : Finset Cell :=
  match r with
  | .ok v => v.grid_positions
  | .error _ => ∅

instance : DecidableEq (Except String Voxels) := fun a b =>
  match a, b with
  | .error e1, .error e2 =>
    if h : e1 = e2 then isTrue (by rw [h]) else isFalse (fun hc => h (Except.error.inj hc))
  | .ok v1, .ok v2 =>
    if h : v1 = v2 then isTrue (by rw [h]) else isFalse (fun hc => h (Except.ok.inj hc))
  | .error _, .ok _ => isFalse (fun hc => Except.noConfusion hc)
  | .ok _, .error _ => isFalse (fun hc => Except.noConfusion hc)

/-- Fold of `min` over the set starting from `i32::max_value()`, one component
of the `Voxels::min_max` fold. -/
def foldMin (S : Finset Cell) (f : Cell → ℤ) : ℤ := S.fold min intMax f

/-- Fold of `max` over the set starting from `i32::min_value()`, one component
of the `Voxels::min_max` fold. -/
def foldMax (S : Finset Cell) (f : Cell → ℤ) : ℤ := S.fold max intMin f

/-- src/voxelize.rs: `Voxels::min_max`: the componentwise fold with sentinel
initial values, returning `(mins, maxs)`. -/
def min_max (S : Finset Cell) : Cell × Cell :=
  ((foldMin S (fun p => p.1), foldMin S (fun p => p.2.1), foldMin S (fun p => p.2.2)),
   (foldMax S (fun p => p.1), foldMax S (fun p => p.2.1), foldMax S (fun p => p.2.2)))

/-- src/voxelize.rs, `Voxels::fill`: one scan line.  `occ` is the occupancy
test along the line, the list is the scanned coordinate range; the state is
`(inside, i, pre)` initialized to `(true, 0, 0)` as in the source.  On each
occupied cell that ends a gap (`i != 0 && w - pre > 1`) the gap's cells are
recorded if `inside` holds, and `inside` is toggled. -/
def lineSweep (occ : ℤ → Bool) : List ℤ → Bool → ℕ → ℤ → List ℤ
  | [], _, _, _ => []
  | w :: ws, inside, i, pre =>
    if occ w then
      (if i ≠ 0 ∧ w - pre > 1 then
        (if inside then intRange (pre + 1) (w - 1) else []) ++
          lineSweep occ ws (!inside) (i + 1) w
      else lineSweep occ ws inside (i + 1) w)
    else lineSweep occ ws inside i pre

/-- src/voxelize.rs, `Voxels::fill`: the `inside_along_z` double loop. -/
def insideAlongZ (S : Finset Cell) (mn mx : Cell) : Finset Cell :=
  ((intRange mn.1 mx.1).flatMap (fun x =>
    (intRange mn.2.1 mx.2.1).flatMap (fun y =>
      (lineSweep (fun z => decide ((x, y, z) ∈ S)) (intRange mn.2.2 mx.2.2) true 0 0).map
        (fun p => (x, y, p))))).toFinset

/-- src/voxelize.rs, `Voxels::fill`: the `inside_along_x` double loop. -/
def insideAlongX (S : Finset Cell) (mn mx : Cell) : Finset Cell :=
  ((intRange mn.2.1 mx.2.1).flatMap (fun y =>
    (intRange mn.2.2 mx.2.2).flatMap (fun z =>
      (lineSweep (fun x => decide ((x, y, z) ∈ S)) (intRange mn.1 mx.1) true 0 0).map
        (fun p => (p, y, z))))).toFinset

/-- src/voxelize.rs, `Voxels::fill`: the `inside_along_y` double loop. -/
def insideAlongY (S : Finset Cell) (mn mx : Cell) : Finset Cell :=
  ((intRange mn.2.2 mx.2.2).flatMap (fun z =>
    (intRange mn.1 mx.1).flatMap (fun x =>
      (lineSweep (fun y => decide ((x, y, z) ∈ S)) (intRange mn.2.1 mx.2.1) true 0 0).map
        (fun p => (x, p, z))))).toFinset

/-- src/voxelize.rs, `Voxels::fill` on the occupancy set: insert the 3-way
intersection `(inside_along_x ∩ inside_along_y) ∩ inside_along_z`. -/
def fillGrid (S : Finset Cell) : Finset Cell :=
  let mm := min_max S
  let iz := insideAlongZ S mm.1 mm.2
  let ix := insideAlongX S mm.1 mm.2
  let iy := insideAlongY S mm.1 mm.2
  S ∪ ((ix ∩ iy) ∩ iz)

/-- src/voxelize.rs: `Voxels::fill` (mutates `grid_positions` in place;
modelled functionally). -/
def Voxels.fill (v : Voxels) : Voxels := ⟨fillGrid v.grid_positions, v.step⟩

/-- src/voxelize.rs: `tri_mesh`: three points flattened to `[T; 3]` rows. -/
def tri_mesh (q1 q2 q3 : Vector3 ℚ) : List Vert :=
  [(q1.x, q1.y, q1.z), (q2.x, q2.y, q2.z), (q3.x, q3.y, q3.z)]

/-- src/voxelize.rs: `voxel_to_mesh`: the cube CENTERED at `voxel * step` with
half-edge `step / 2`, one pair of triangles per enabled direction flag, in
source order `[x_p, x_n, y_p, y_n, z_p, z_n]`. -/
def voxel_to_mesh (voxel : Cell) (step : ℚ)
    (d0 d1 d2 d3 d4 d5 : Bool) : List Vert :=
  let half := step / 2
  let x := (voxel.1 : ℚ) * step
  let y := (voxel.2.1 : ℚ) * step
  let z := (voxel.2.2 : ℚ) * step
  let q1 : Vector3 ℚ := ⟨x + half, y + half, z + half⟩
  let q2 : Vector3 ℚ := ⟨x + half, y + half, z - half⟩
  let q3 : Vector3 ℚ := ⟨x + half, y - half, z + half⟩
  let q4 : Vector3 ℚ := ⟨x + half, y - half, z - half⟩
  let q5 : Vector3 ℚ := ⟨x - half, y + half, z + half⟩
  let q6 : Vector3 ℚ := ⟨x - half, y + half, z - half⟩
  let q7 : Vector3 ℚ := ⟨x - half, y - half, z + half⟩
  let q8 : Vector3 ℚ := ⟨x - half, y - half, z - half⟩
  (if d0 then tri_mesh q1 q2 q3 ++ tri_mesh q3 q2 q4 else []) ++
  (if d1 then tri_mesh q5 q7 q6 ++ tri_mesh q8 q6 q7 else []) ++
  (if d2 then tri_mesh q1 q5 q6 ++ tri_mesh q1 q6 q2 else []) ++
  (if d3 then tri_mesh q7 q3 q8 ++ tri_mesh q3 q4 q8 else []) ++
  (if d4 then tri_mesh q7 q5 q1 ++ tri_mesh q7 q1 q3 else []) ++
  (if d5 then tri_mesh q6 q8 q2 ++ tri_mesh q8 q4 q2 else [])

/-- src/voxelize.rs: `Voxels::vertices_indices`, with `g` an enumeration of
`grid_positions` (hash iteration order is unspecified): per cell, test the six
neighbors for absence, emit `voxel_to_mesh`, and return the sequential index
range. -/
def vertices_indices (g : List Cell) (step : ℚ) : List Vert × List ℕ :=
  let meshes := g.flatMap (fun v =>
    let x_p := !(g.contains (v.1 + 1, v.2.1, v.2.2))
    let x_n := !(g.contains (v.1 - 1, v.2.1, v.2.2))
    let y_p := !(g.contains (v.1, v.2.1 + 1, v.2.2))
    let y_n := !(g.contains (v.1, v.2.1 - 1, v.2.2))
    let z_p := !(g.contains (v.1, v.2.1, v.2.2 + 1))
    let z_n := !(g.contains (v.1, v.2.1, v.2.2 - 1))
    voxel_to_mesh v step x_p x_n y_p y_n z_p z_n)
  (meshes, List.range meshes.length)

/-- src/voxelize.rs: `Voxels::point_cloud`, with `g` an enumeration of
`grid_positions`: each occupied cell maps to `coordinate * step`. -/
def point_cloud (g : List Cell) (step : ℚ) : List Vert :=
  g.map (fun v => ((v.1 : ℚ) * step, (v.2.1 : ℚ) * step, (v.2.2 : ℚ) * step))

/-- Specification-side definition for C5, following the spec words: divide the
triangle's world AABB min and max by the step, floor BOTH bounds, then pad the
scan range by one cell in the increasing direction. -/
def grid_aabb_floorPad (t : Triangle) (step : ℚ) : AABB ℤ :=
  { min := vector_to_grid_step_floor t.aabb.min step,
    max := (vector_to_grid_step_floor t.aabb.max step).add ⟨1, 1, 1⟩ }

/-- The six vertices (two triangles) of one face of the `voxel_to_mesh` cube,
by direction index 0..5 in the source order `[x_p, x_n, y_p, y_n, z_p, z_n]`,
with the same corner constants as `voxel_to_mesh`. -/
def faceVerts (voxel : Cell) (step : ℚ) (t : ℕ) : List Vert :=
  let half := step / 2
  let x := (voxel.1 : ℚ) * step
  let y := (voxel.2.1 : ℚ) * step
  let z := (voxel.2.2 : ℚ) * step
  let q1 : Vector3 ℚ := ⟨x + half, y + half, z + half⟩
  let q2 : Vector3 ℚ := ⟨x + half, y + half, z - half⟩
  let q3 : Vector3 ℚ := ⟨x + half, y - half, z + half⟩
  let q4 : Vector3 ℚ := ⟨x + half, y - half, z - half⟩
  let q5 : Vector3 ℚ := ⟨x - half, y + half, z + half⟩
  let q6 : Vector3 ℚ := ⟨x - half, y + half, z - half⟩
  let q7 : Vector3 ℚ := ⟨x - half, y - half, z + half⟩
  let q8 : Vector3 ℚ := ⟨x - half, y - half, z - half⟩
  match t with
  | 0 => tri_mesh q1 q2 q3 ++ tri_mesh q3 q2 q4
  | 1 => tri_mesh q5 q7 q6 ++ tri_mesh q8 q6 q7
  | 2 => tri_mesh q1 q5 q6 ++ tri_mesh q1 q6 q2
  | 3 => tri_mesh q7 q3 q8 ++ tri_mesh q3 q4 q8
  | 4 => tri_mesh q7 q5 q1 ++ tri_mesh q7 q1 q3
  | 5 => tri_mesh q6 q8 q2 ++ tri_mesh q8 q4 q2
  | _ => []

/-- The neighboring cell in direction index 0..5, matching the neighbor tests
of `Voxels::vertices_indices`. -/
def neighborIdx (v : Cell) : ℕ → Cell
  | 0 => (v.1 + 1, v.2.1, v.2.2)
  | 1 => (v.1 - 1, v.2.1, v.2.2)
  | 2 => (v.1, v.2.1 + 1, v.2.2)
  | 3 => (v.1, v.2.1 - 1, v.2.2)
  | 4 => (v.1, v.2.1, v.2.2 + 1)
  | 5 => (v.1, v.2.1, v.2.2 - 1)
  | _ => v

/-- Specification-side definition for C8: the face directions of a cell whose
neighboring cell is absent from the occupancy set. -/
def exposedDirs (g : List Cell) (v : Cell) : List ℕ :=
  (List.range 6).filter (fun t => !(g.contains (neighborIdx v t)))

/-- Specification-side definition for C8: for every occupied cell and each of
its 6 directions, emit that face's two triangles if and only if the neighbor
in that direction is absent. -/
def meshSpec (g : List Cell) (step : ℚ) : List Vert :=
  g.flatMap (fun v => (exposedDirs g v).flatMap (faceVerts v step))

/-- The machine epsilon of `f64` (`f64::EPSILON = 2⁻⁵²`), the `T::epsilon()`
of the crate's default scalar. -/
def epsF64 : ℚ := 1 / 2 ^ 52

/-- The SAT padding used by `Voxels::voxelize`: `T::epsilon() * 10`. -/
def epsPad : ℚ := epsF64 * 10

/-- Witness triangle for C1: a thin triangle in the plane `x = 1/2`, sloping
down in `(y, z)` from `(1/2, 3)` to `(5/2, 1/2)`. -/
def triC1 : Triangle :=
  Triangle.new ⟨1/2, 1/2, 3⟩ ⟨1/2, 5/2, 1/2⟩ ⟨1/2, 7/10, 3⟩

/-- Scenario A vertex array: the 8 corners of the unit cube. -/
def cubeVerts : List Vert :=
  [(0,0,0), (1,0,0), (1,1,0), (0,1,0), (0,0,1), (1,0,1), (1,1,1), (0,1,1)]

/-- Scenario A index array: 12 triangles (2 per face) of the unit cube. -/
def cubeIdx : List ℕ :=
  [0,1,2, 0,2,3, 4,6,5, 4,7,6, 0,5,1, 0,4,5, 3,2,6, 3,6,7, 0,3,7, 0,7,4, 1,6,2, 1,5,6]

/-- The eight cells `{0,1}³` in a fixed enumeration order. -/
def cube8List : List Cell :=
  [(0,0,0), (0,0,1), (0,1,0), (0,1,1), (1,0,0), (1,0,1), (1,1,0), (1,1,1)]

/-- The eight cells `{0,1}³` as an occupancy set. -/
def cube8 : Finset Cell := cube8List.toFinset

/-- Witness occupancy set for C4: walls that make `(0,-3,0)` interior on the
first pass and, once it is inserted, make `(0,0,0)` interior on the second. -/
def v4 : List Cell :=
  [(0,-4,0), (0,-2,0), (0,2,0), (-1,0,0), (1,0,0), (0,0,-1), (0,0,1),
   (-1,-3,0), (1,-3,0), (0,-3,-1), (0,-3,1)]

/-- Witness triangle for C5: its AABB max divided by step 1 is integral. -/
def triC5 : Triangle := Triangle.new ⟨0,0,0⟩ ⟨1,0,0⟩ ⟨0,1,0⟩

/-- Witness triangle for the amended C5 bound containment. -/
def triC5w : Triangle := Triangle.new ⟨0,0,0⟩ ⟨1,0,0⟩ ⟨0,1,1⟩

/-- Witness vertex array for C7: coordinates near `2⁴⁰` whose grid bounds do
not fit in i32 at step 1, with valid face indices and a valid step. -/
def bigVerts : List Vert :=
  [(1099511627776, 0, 0), (1099511627777, 0, 0), (1099511627776, 1, 0)]

/-- Witness vertex array for C9. -/
def wVerts : List Vert := [(0,0,0), (1/2,0,0), (0,1/2,0), (0,0,1/2)]

/-- Witness flat index list for C9 (faces `(0,1,2)` then `(0,1,3)`). -/
def wl1 : List ℕ := [0,1,2,0,1,3]

/-- Witness flat index list for C9 with the two faces swapped. -/
def wl2 : List ℕ := [0,1,3,0,1,2]

/-- The face triples of `wl1`. -/
def wf1 : List (ℕ × ℕ × ℕ) := [(0,1,2), (0,1,3)]

/-- The face triples of `wl2`. -/
def wf2 : List (ℕ × ℕ × ℕ) := [(0,1,3), (0,1,2)]

/-- Witness occupancy set for C6. -/
def v6 : Finset Cell := ({(1,2,3), (-4,0,5)} : Finset Cell)

/-! ## Helper lemmas -/

theorem foldMin_le (S : Finset Cell) (f : Cell → ℤ) : ∀ a ∈ S, foldMin S f ≤ f a := by
  classical
  refine Finset.induction_on S ?_ ?_
  · simp
  · intro a s ha ih b hb
    rw [foldMin, Finset.fold_insert ha]
    rcases Finset.mem_insert.mp hb with h | h
    · subst h; exact min_le_left _ _
    · exact le_trans (min_le_right _ _) (ih b h)

theorem le_foldMax (S : Finset Cell) (f : Cell → ℤ) : ∀ a ∈ S, f a ≤ foldMax S f := by
  classical
  refine Finset.induction_on S ?_ ?_
  · simp
  · intro a s ha ih b hb
    rw [foldMax, Finset.fold_insert ha]
    rcases Finset.mem_insert.mp hb with h | h
    · subst h; exact le_max_left _ _
    · exact le_trans (ih b h) (le_max_right _ _)

theorem foldMin_eq_init_or_mem (S : Finset Cell) (f : Cell → ℤ) :
    foldMin S f = intMax ∨ ∃ a ∈ S, foldMin S f = f a := by
  classical
  refine Finset.induction_on S ?_ ?_
  · left; rfl
  · intro a s ha ih
    rw [foldMin, Finset.fold_insert ha]
    rcases min_cases (f a) (Finset.fold min intMax f s) with ⟨h, _⟩ | ⟨h, _⟩
    · exact Or.inr ⟨a, Finset.mem_insert_self a s, h⟩
    · rcases ih with h' | ⟨b, hb, h'⟩
      · left; rw [h]; exact h'
      · exact Or.inr ⟨b, Finset.mem_insert_of_mem hb, h.trans h'⟩

theorem foldMax_eq_init_or_mem (S : Finset Cell) (f : Cell → ℤ) :
    foldMax S f = intMin ∨ ∃ a ∈ S, foldMax S f = f a := by
  classical
  refine Finset.induction_on S ?_ ?_
  · left; rfl
  · intro a s ha ih
    rw [foldMax, Finset.fold_insert ha]
    rcases max_cases (f a) (Finset.fold max intMin f s) with ⟨h, _⟩ | ⟨h, _⟩
    · exact Or.inr ⟨a, Finset.mem_insert_self a s, h⟩
    · rcases ih with h' | ⟨b, hb, h'⟩
      · left; rw [h]; exact h'
      · exact Or.inr ⟨b, Finset.mem_insert_of_mem hb, h.trans h'⟩

theorem foldMin_attained (S : Finset Cell) (f : Cell → ℤ) (hne : S.Nonempty)
    (hb : ∀ a ∈ S, f a ≤ intMax) : ∃ a ∈ S, foldMin S f = f a := by
  rcases foldMin_eq_init_or_mem S f with h | h
  · obtain ⟨a, ha⟩ := hne
    have h1 := foldMin_le S f a ha
    have h2 := hb a ha
    exact ⟨a, ha, by omega⟩
  · exact h

theorem foldMax_attained (S : Finset Cell) (f : Cell → ℤ) (hne : S.Nonempty)
    (hb : ∀ a ∈ S, intMin ≤ f a) : ∃ a ∈ S, foldMax S f = f a := by
  rcases foldMax_eq_init_or_mem S f with h | h
  · obtain ⟨a, ha⟩ := hne
    have h1 := le_foldMax S f a ha
    have h2 := hb a ha
    exact ⟨a, ha, by omega⟩
  · exact h

theorem to_grid_step_floor_le {lo s : ℚ} {i : ℤ} (hs : 0 < s) (h : lo < ((i : ℚ) + 1) * s) :
    to_grid_step_floor lo s ≤ i := by
  unfold to_grid_step_floor
  have h1 : lo / s < (i : ℚ) + 1 := (div_lt_iff₀ hs).mpr h
  have h2 : (⌊lo / s⌋ : ℚ) ≤ lo / s := Int.floor_le _
  have h3 : (⌊lo / s⌋ : ℚ) < ((i + 1 : ℤ) : ℚ) := by push_cast; linarith
  have h4 : ⌊lo / s⌋ < i + 1 := by exact_mod_cast h3
  omega

theorem le_to_grid_step_ceil {hi s : ℚ} {i : ℤ} (hs : 0 < s) (h : (i : ℚ) * s < hi) :
    i ≤ to_grid_step_ceil hi s := by
  unfold to_grid_step_ceil
  have h1 : (i : ℚ) < hi / s := (lt_div_iff₀ hs).mpr h
  have h2 : hi / s ≤ (⌈hi / s⌉ : ℚ) := Int.le_ceil _
  have h3 : (i : ℚ) < (⌈hi / s⌉ : ℚ) := lt_of_lt_of_le h1 h2
  have h4 : i < ⌈hi / s⌉ := by exact_mod_cast h3
  omega

theorem voxel_to_mesh_eq_filter (voxel : Cell) (step : ℚ) (b0 b1 b2 b3 b4 b5 : Bool) :
    voxel_to_mesh voxel step b0 b1 b2 b3 b4 b5 =
      ((List.range 6).filter (fun t => match t with
        | 0 => b0 | 1 => b1 | 2 => b2 | 3 => b3 | 4 => b4 | 5 => b5
        | _ => false)).flatMap (faceVerts voxel step) := by
  cases b0 <;> cases b1 <;> cases b2 <;> cases b3 <;> cases b4 <;> cases b5 <;> rfl

theorem vertices_indices_fst_eq_meshSpec (g : List Cell) (step : ℚ) :
    (vertices_indices g step).1 = meshSpec g step := by
  unfold vertices_indices meshSpec
  refine congrArg (List.flatMap g) (funext fun v => ?_)
  simp only [voxel_to_mesh_eq_filter]
  unfold exposedDirs
  congr 1

theorem exposedDirs_eq_of_mem_iff {g1 g2 : List Cell}
    (h : ∀ a : Cell, a ∈ g1 ↔ a ∈ g2) (v : Cell) : exposedDirs g1 v = exposedDirs g2 v := by
  unfold exposedDirs
  refine List.filter_congr ?_
  intro t _
  have hc : g1.contains (neighborIdx v t) = g2.contains (neighborIdx v t) := by
    have e1 : g1.contains (neighborIdx v t) = decide (neighborIdx v t ∈ g1) :=
      List.elem_eq_mem _ _
    have e2 : g2.contains (neighborIdx v t) = decide (neighborIdx v t ∈ g2) :=
      List.elem_eq_mem _ _
    rw [e1, e2]
    exact decide_eq_decide.mpr (h _)
  rw [hc]

theorem meshSpec_length_eq_of_perm (g1 g2 : List Cell) (step : ℚ) (hp : g1.Perm g2) :
    (meshSpec g1 step).length = (meshSpec g2 step).length := by
  have hfun : (fun v => (exposedDirs g1 v).flatMap (faceVerts v step)) =
      (fun v => (exposedDirs g2 v).flatMap (faceVerts v step)) := by
    funext v
    rw [exposedDirs_eq_of_mem_iff (fun a => hp.mem_iff) v]
  unfold meshSpec
  rw [hfun]
  exact (hp.flatMap_right _).length_eq

/-! ## Claims -/

/-- Claim C1 (code_bug evidence): at step 1 with the pipeline's padding
`10 * 2⁻⁵²`, the cells `(0,1,1)` and `(0,1,2)` lie inside the scanned grid
range of `triC1` and their epsilon-padded world boxes pass the SAT test, yet
`Triangle::voxelize` omits them: the early-exit `break` fires on the stale
`intersects_pre` flag carried over from the previous scan column.  The claim
that every SAT-passing cell of the inclusive range is present in the returned
list is therefore false on the code. -/
theorem c1_early_exit_misses_sat_cells :
    triC1.grid_aabb 1 = { min := ⟨0, 0, 0⟩, max := ⟨1, 3, 3⟩ } ∧
    triangle_aabb_intersects triC1 (cellBox (0, 1, 1) 1 epsPad) = true ∧
    triangle_aabb_intersects triC1 (cellBox (0, 1, 2) 1 epsPad) = true ∧
    triC1.voxelize 1 epsPad = [(0, 0, 2), (0, 0, 3), (0, 2, 0), (0, 2, 1)] ∧
    ((0 : ℤ), (1 : ℤ), (1 : ℤ)) ∉ triC1.voxelize 1 epsPad ∧
    ((0 : ℤ), (1 : ℤ), (2 : ℤ)) ∉ triC1.voxelize 1 epsPad := by
  decide

/-- Claim C3 (code_bug evidence): the voxelizer's SAT box for cell `(0,0,0)`
at step 1 is the minimum-corner cube `[0,1]³` and `point_cloud` maps the cell
to its minimum corner `(0,0,0)`, but `voxel_to_mesh` emits the cube CENTERED
at `(0,0,0)`: it contains the vertex `(-1/2,-1/2,-1/2)`, which lies outside
the addressed box.  The addressing conventions disagree. -/
theorem c3_addressing_divergence :
    cellBox (0, 0, 0) 1 0 = { min := ⟨0, 0, 0⟩, max := ⟨1, 1, 1⟩ } ∧
    point_cloud [(0, 0, 0)] 1 = [(0, 0, 0)] ∧
    ((-(1 : ℚ)/2, -(1 : ℚ)/2, -(1 : ℚ)/2) ∈
      voxel_to_mesh (0, 0, 0) 1 true true true true true true) ∧
    ¬ ((0 : ℚ) ≤ -(1 : ℚ)/2) := by
  decide

/-- Claim C4 counterexample: `fill` is NOT idempotent.  On the occupancy set
`v4` the first call inserts only `(0,-3,0)`; that insertion merges two runs of
the y-line through `(0,0,0)`, so the second call classifies `(0,0,0)` interior
along all three axes and inserts it. -/
theorem c4_counterexample :
    Voxels.fill (Voxels.fill ⟨v4.toFinset, 1⟩) ≠ Voxels.fill ⟨v4.toFinset, 1⟩ := by
  decide

/-- Claim C4 amended: `fill` is monotonic — it never removes cells, and a
second call only ever adds further cells (idempotence fails, see the
counterexample). -/
theorem c4_amended_fill_monotonic (V : Voxels) :
    V.grid_positions ⊆ (V.fill).grid_positions ∧
    (V.fill).grid_positions ⊆ (V.fill.fill).grid_positions := by
  constructor
  · exact Finset.subset_union_left
  · exact Finset.subset_union_left

/-- Claim C5 counterexample: the scanned range is NOT "floor both bounds then
pad by one cell upward": for a triangle whose AABB max over step is integral
(here max `(1,1,0)` at step 1) the code's `ceil` gives grid max `(1,1,0)`
while the claimed floor-plus-one padding would give `(2,2,1)`. -/
theorem c5_counterexample : triC5.grid_aabb 1 ≠ grid_aabb_floorPad triC5 1 := by
  decide

/-- Claim C5 amended: the code floors the min bound and CEILS the max bound
(`ceil` equals floor-plus-one except at integral quotients); the resulting
inclusive range contains every cell whose world box overlaps the triangle's
AABB with positive (interior) overlap in each axis. -/
theorem c5_amended_range_covers (t : Triangle) (step : ℚ) (i j k : ℤ) (hs : 0 < step)
    (hx : (i : ℚ) * step < t.aabb.max.x ∧ t.aabb.min.x < ((i : ℚ) + 1) * step)
    (hy : (j : ℚ) * step < t.aabb.max.y ∧ t.aabb.min.y < ((j : ℚ) + 1) * step)
    (hz : (k : ℚ) * step < t.aabb.max.z ∧ t.aabb.min.z < ((k : ℚ) + 1) * step) :
    ((t.grid_aabb step).min.x ≤ i ∧ i ≤ (t.grid_aabb step).max.x) ∧
    ((t.grid_aabb step).min.y ≤ j ∧ j ≤ (t.grid_aabb step).max.y) ∧
    ((t.grid_aabb step).min.z ≤ k ∧ k ≤ (t.grid_aabb step).max.z) :=
  ⟨⟨to_grid_step_floor_le hs hx.2, le_to_grid_step_ceil hs hx.1⟩,
   ⟨to_grid_step_floor_le hs hy.2, le_to_grid_step_ceil hs hy.1⟩,
   ⟨to_grid_step_floor_le hs hz.2, le_to_grid_step_ceil hs hz.1⟩⟩

/-- Claim C5 witness: the amended range containment at a concrete triangle,
step and cell. -/
theorem c5_amended_range_covers_witness :
    ((triC5w.grid_aabb 1).min.x ≤ 0 ∧ 0 ≤ (triC5w.grid_aabb 1).max.x) ∧
    ((triC5w.grid_aabb 1).min.y ≤ 0 ∧ 0 ≤ (triC5w.grid_aabb 1).max.y) ∧
    ((triC5w.grid_aabb 1).min.z ≤ 0 ∧ 0 ≤ (triC5w.grid_aabb 1).max.z) :=
  c5_amended_range_covers triC5w 1 0 0 0 (by norm_num)
    (by constructor <;> decide) (by constructor <;> decide) (by constructor <;> decide)

/-- Claim C6 counterexample: on the empty occupancy set `min_max` returns the
untouched fold sentinels — reported minimum `i32::MAX`, reported maximum
`i32::MIN`, an inverted garbage pair — rather than a defined "no bounds"
result. -/
theorem c6_counterexample :
    min_max (∅ : Finset Cell) = ((intMax, intMax, intMax), (intMin, intMin, intMin)) ∧
    intMin < intMax := by
  decide

/-- Claim C6 amended: on the empty set `min_max` returns the inverted sentinel
pair; on a nonempty set whose coordinates lie in the i32 range it returns the
componentwise minimum and maximum of the occupied coordinates (each bound both
valid and attained). -/
theorem c6_amended_min_max (S : Finset Cell)
    (hr : ∀ p ∈ S, intMin ≤ p.1 ∧ p.1 ≤ intMax ∧ intMin ≤ p.2.1 ∧ p.2.1 ≤ intMax ∧
      intMin ≤ p.2.2 ∧ p.2.2 ≤ intMax) :
    (S = ∅ → min_max S = ((intMax, intMax, intMax), (intMin, intMin, intMin))) ∧
    (S.Nonempty →
      (∀ p ∈ S, (min_max S).1.1 ≤ p.1 ∧ p.1 ≤ (min_max S).2.1 ∧
        (min_max S).1.2.1 ≤ p.2.1 ∧ p.2.1 ≤ (min_max S).2.2.1 ∧
        (min_max S).1.2.2 ≤ p.2.2 ∧ p.2.2 ≤ (min_max S).2.2.2) ∧
      (∃ p ∈ S, p.1 = (min_max S).1.1) ∧ (∃ p ∈ S, p.2.1 = (min_max S).1.2.1) ∧
      (∃ p ∈ S, p.2.2 = (min_max S).1.2.2) ∧ (∃ p ∈ S, p.1 = (min_max S).2.1) ∧
      (∃ p ∈ S, p.2.1 = (min_max S).2.2.1) ∧ (∃ p ∈ S, p.2.2 = (min_max S).2.2.2)) := by
  constructor
  · rintro rfl; decide
  · intro hne
    refine ⟨?_, ?_, ?_, ?_, ?_, ?_, ?_⟩
    · intro p hp
      exact ⟨foldMin_le S _ p hp, le_foldMax S _ p hp, foldMin_le S _ p hp,
        le_foldMax S _ p hp, foldMin_le S _ p hp, le_foldMax S _ p hp⟩
    · obtain ⟨a, ha, h⟩ := foldMin_attained S (fun p => p.1) hne
        (fun a ha => (hr a ha).2.1)
      exact ⟨a, ha, h.symm⟩
    · obtain ⟨a, ha, h⟩ := foldMin_attained S (fun p => p.2.1) hne
        (fun a ha => (hr a ha).2.2.2.1)
      exact ⟨a, ha, h.symm⟩
    · obtain ⟨a, ha, h⟩ := foldMin_attained S (fun p => p.2.2) hne
        (fun a ha => (hr a ha).2.2.2.2.2)
      exact ⟨a, ha, h.symm⟩
    · obtain ⟨a, ha, h⟩ := foldMax_attained S (fun p => p.1) hne
        (fun a ha => (hr a ha).1)
      exact ⟨a, ha, h.symm⟩
    · obtain ⟨a, ha, h⟩ := foldMax_attained S (fun p => p.2.1) hne
        (fun a ha => (hr a ha).2.2.1)
      exact ⟨a, ha, h.symm⟩
    · obtain ⟨a, ha, h⟩ := foldMax_attained S (fun p => p.2.2) hne
        (fun a ha => (hr a ha).2.2.2.2.1)
      exact ⟨a, ha, h.symm⟩

/-- Claim C6 witness: the amended `min_max` bounds at the cell `(1,2,3)` of a
concrete two-element occupancy set. -/
theorem c6_amended_min_max_witness :
    (min_max v6).1.1 ≤ 1 ∧ (1 : ℤ) ≤ (min_max v6).2.1 ∧
    (min_max v6).1.2.1 ≤ 2 ∧ (2 : ℤ) ≤ (min_max v6).2.2.1 ∧
    (min_max v6).1.2.2 ≤ 3 ∧ (3 : ℤ) ≤ (min_max v6).2.2.2 := by
  have h := ((c6_amended_min_max v6 (by decide)).2 (by decide)).1 (1, 2, 3) (by decide)
  exact ⟨h.1, h.2.1, h.2.2.1, h.2.2.2.1, h.2.2.2.2.1, h.2.2.2.2.2⟩

/-- Claim C10: filling a `Voxels` value with empty occupancy terminates and
leaves the set empty: `min_max` returns the inverted sentinels
(`i32::MAX` as min, `i32::MIN` as max), every sweep range
`min..(max + 1)` is then empty, and no cell is inserted. -/
theorem c10_fill_empty (s : ℚ) :
    Voxels.fill ⟨∅, s⟩ = ⟨∅, s⟩ ∧
    min_max (∅ : Finset Cell) = ((intMax, intMax, intMax), (intMin, intMin, intMin)) ∧
    intRange intMax intMin = [] := by
  refine ⟨?_, by decide, by decide⟩
  show (⟨fillGrid ∅, s⟩ : Voxels) = ⟨∅, s⟩
  have h : fillGrid ∅ = ∅ := by decide
  rw [h]

/-- Claim C8: `vertices_indices` emits, for each occupied cell and each of its
6 directions in source order, that face's two triangles exactly when the
neighboring cell in that direction is absent from the set (`meshSpec` is the
literal transcription of that rule), and the returned index list is the
sequential range over the emitted vertices. -/
theorem c8_face_culling (g : List Cell) (step : ℚ) :
    (vertices_indices g step).1 = meshSpec g step ∧
    (vertices_indices g step).2 = List.range (vertices_indices g step).1.length :=
  ⟨vertices_indices_fst_eq_meshSpec g step, rfl⟩

theorem cubeOcc_eq : occOf (voxelizeE cubeVerts cubeIdx 1 epsF64) = cube8 := by
  decide

/-- Claim C2 counterexample: voxelizing the 12-triangle unit cube at step 1
does NOT give a single occupied cell: the boundary faces at coordinate 1 also
hit the neighboring cells, giving all eight cells of `{0,1}³`. -/
theorem c2_counterexample :
    occOf (voxelizeE cubeVerts cubeIdx 1 epsF64) ≠ {((0 : ℤ), (0 : ℤ), (0 : ℤ))} := by
  rw [cubeOcc_eq]
  decide

/-- Claim C2 amended: voxelizing the unit cube mesh (12 triangles) at step 1
yields the eight cells `{0,1}³` (the ceil-based scan range plus the inclusive,
epsilon-padded SAT test also hit the boundary-touching cells), and
reconstruction from that set (in any enumeration order) yields 48 triangles —
144 vertices with the sequential index range — not 12. -/
theorem c2_amended_cube (g : List Cell) (hnd : g.Nodup) (hg : g.toFinset = cube8) :
    occOf (voxelizeE cubeVerts cubeIdx 1 epsF64) = cube8 ∧
    (vertices_indices g 1).1.length = 144 ∧
    (vertices_indices g 1).2 = List.range 144 := by
  have hperm : g.Perm cube8List :=
    List.perm_of_nodup_nodup_toFinset_eq hnd (by decide) hg
  have hlen : (vertices_indices g 1).1.length = 144 := by
    calc (vertices_indices g 1).1.length
        = (meshSpec g 1).length := by rw [vertices_indices_fst_eq_meshSpec]
      _ = (meshSpec cube8List 1).length := meshSpec_length_eq_of_perm _ _ 1 hperm
      _ = 144 := by decide
  refine ⟨cubeOcc_eq, hlen, ?_⟩
  show List.range (vertices_indices g 1).1.length = List.range 144
  rw [hlen]

/-- Claim C2 witness: the amended statement at the fixed enumeration order of
the eight cells. -/
theorem c2_amended_cube_witness :
    occOf (voxelizeE cubeVerts cubeIdx 1 epsF64) = cube8 ∧
    (vertices_indices cube8List 1).1.length = 144 ∧
    (vertices_indices cube8List 1).2 = List.range 144 :=
  c2_amended_cube cube8List (by decide) rfl

theorem exceptMap_ok_iff {α β : Type} (e : Except String α) (g : α → β) :
    (∃ b, e.map g = .ok b) ↔ ∃ a, e = .ok a := by
  cases e with
  | error er => simp [Except.map]
  | ok a => simp [Except.map]

theorem buildTris_cons_ok_iff (v : List Vert) (f : ℕ × ℕ × ℕ) (fs : List (ℕ × ℕ × ℕ)) :
    (∃ ts, buildTris v (f :: fs) = .ok ts) ↔
      ((f.1 < v.length ∧ f.2.1 < v.length ∧ f.2.2 < v.length) ∧
        ∃ ts, buildTris v fs = .ok ts) := by
  constructor
  · rintro ⟨ts, hts⟩
    unfold buildTris at hts
    split at hts
    case _ a b c h1 h2 h3 =>
      obtain ⟨ha, _⟩ := List.getElem?_eq_some.mp h1
      obtain ⟨hb, _⟩ := List.getElem?_eq_some.mp h2
      obtain ⟨hc, _⟩ := List.getElem?_eq_some.mp h3
      exact ⟨⟨ha, hb, hc⟩, (exceptMap_ok_iff _ _).mp ⟨ts, hts⟩⟩
    case _ => cases hts
  · rintro ⟨⟨h1, h2, h3⟩, ts, hts⟩
    have e1 : v[f.1]? = some v[f.1] := List.getElem?_eq_some.mpr ⟨h1, rfl⟩
    have e2 : v[f.2.1]? = some v[f.2.1] := List.getElem?_eq_some.mpr ⟨h2, rfl⟩
    have e3 : v[f.2.2]? = some v[f.2.2] := List.getElem?_eq_some.mpr ⟨h3, rfl⟩
    refine ⟨Triangle.new (vecOf v[f.1]) (vecOf v[f.2.1]) (vecOf v[f.2.2]) :: ts, ?_⟩
    unfold buildTris
    rw [e1, e2, e3, hts]
    rfl

theorem buildTris_ok_iff (v : List Vert) (fs : List (ℕ × ℕ × ℕ)) :
    (∃ ts, buildTris v fs = .ok ts) ↔
      ∀ f ∈ fs, f.1 < v.length ∧ f.2.1 < v.length ∧ f.2.2 < v.length := by
  induction fs with
  | nil => simp [buildTris]
  | cons f fs ih =>
    rw [buildTris_cons_ok_iff, ih]
    simp [List.forall_mem_cons]

theorem buildTris_ok_eq (v : List Vert) :
    ∀ (fs : List (ℕ × ℕ × ℕ)) (ts : List Triangle),
      buildTris v fs = .ok ts → ts = fs.map (triOf v)
  | [], ts, h => by
    unfold buildTris at h
    cases h
    rfl
  | f :: fs, ts, h => by
    unfold buildTris at h
    split at h
    case _ a b c h1 h2 h3 =>
      cases hb : buildTris v fs with
      | error e => rw [hb] at h; cases h
      | ok ts0 =>
        rw [hb] at h
        cases h
        have htail := buildTris_ok_eq v fs ts0 hb
        have hA : v.getD f.1 (0, 0, 0) = a := by
          rw [List.getD_eq_getElem?_getD, h1]; rfl
        have hB : v.getD f.2.1 (0, 0, 0) = b := by
          rw [List.getD_eq_getElem?_getD, h2]; rfl
        have hC : v.getD f.2.2 (0, 0, 0) = c := by
          rw [List.getD_eq_getElem?_getD, h3]; rfl
        simp only [List.map_cons, triOf, hA, hB, hC, htail]
    case _ => cases h

theorem triCellsE_ok_iff (step eps : ℚ) (ts : List Triangle) :
    (∃ cs, triCellsE step eps ts = .ok cs) ↔ ∀ t ∈ ts, gridOk t step = true := by
  induction ts with
  | nil => simp [triCellsE]
  | cons t ts ih =>
    unfold triCellsE
    by_cases hg : gridOk t step
    · rw [if_pos hg, exceptMap_ok_iff, ih]
      simp [List.forall_mem_cons, hg]
    · rw [if_neg hg]
      constructor
      · rintro ⟨cs, hcs⟩; cases hcs
      · intro hall
        exact absurd (hall t (List.mem_cons_self t ts)) hg

theorem triCellsE_ok_eq (step eps : ℚ) :
    ∀ (ts : List Triangle) (cs : List Cell),
      triCellsE step eps ts = .ok cs → cs = ts.flatMap (fun t => t.voxelize step eps)
  | [], cs, h => by
    unfold triCellsE at h
    cases h
    rfl
  | t :: ts, cs, h => by
    unfold triCellsE at h
    by_cases hg : gridOk t step
    · rw [if_pos hg] at h
      cases hc : triCellsE step eps ts with
      | error e => rw [hc] at h; cases h
      | ok cs0 =>
        rw [hc] at h
        cases h
        have htail := triCellsE_ok_eq step eps ts cs0 hc
        simp only [List.flatMap_cons, htail]
    · rw [if_neg hg] at h
      cases h

theorem voxelizeE_unfold_matches {v : List Vert} {idx : List ℕ} {step epsT : ℚ}
    {fs : List (ℕ × ℕ × ℕ)} (hstep : ¬ step ≤ epsT) (hfs : chunk3 idx = some fs) :
    voxelizeE v idx step epsT =
      (match buildTris v fs with
        | Except.error e => Except.error e
        | Except.ok tris =>
          match triCellsE step (epsT * 10) tris with
          | Except.error e => Except.error e
          | Except.ok cells => Except.ok (⟨cells.toFinset, step⟩ : Voxels)) := by
  unfold voxelizeE
  rw [if_neg hstep, hfs]

theorem voxelizeE_ok_eq (v : List Vert) (idx : List ℕ) (step epsT : ℚ) (V : Voxels)
    (fs : List (ℕ × ℕ × ℕ)) (hfs : chunk3 idx = some fs)
    (h : voxelizeE v idx step epsT = .ok V) :
    V.grid_positions =
      ((fs.map (triOf v)).flatMap (fun t => t.voxelize step (epsT * 10))).toFinset ∧
    V.step = step := by
  by_cases hstep : step ≤ epsT
  · unfold voxelizeE at h
    rw [if_pos hstep] at h
    cases h
  · rw [voxelizeE_unfold_matches hstep hfs] at h
    cases hb : buildTris v fs with
    | error e =>
      rw [hb] at h
      replace h : (Except.error e : Except String Voxels) = Except.ok V := h
      cases h
    | ok ts =>
      rw [hb] at h
      replace h : (match triCellsE step (epsT * 10) ts with
        | Except.error e => Except.error e
        | Except.ok cells => Except.ok (⟨cells.toFinset, step⟩ : Voxels)) = Except.ok V := h
      cases hc : triCellsE step (epsT * 10) ts with
      | error e =>
        rw [hc] at h
        replace h : (Except.error e : Except String Voxels) = Except.ok V := h
        cases h
      | ok cells =>
        rw [hc] at h
        replace h : Except.ok (⟨cells.toFinset, step⟩ : Voxels) = Except.ok V := h
        cases h
        rw [triCellsE_ok_eq step (epsT * 10) ts cells hc, buildTris_ok_eq v fs ts hb]
        exact ⟨rfl, rfl⟩

/-- Claim C7 counterexample: a mesh with a valid step (1 > epsilon), a
well-formed index list and only valid face indices on which `Voxels::voxelize`
still fails fast — the triangle's grid bounds (around 2⁴⁰) do not fit in i32,
so the `to_i32().expect("cannot convert to i32")` conversion panics.  The
claimed "exactly when" characterization is therefore false. -/
theorem c7_counterexample :
    voxelizeE bigVerts [0, 1, 2] 1 epsF64 = .error "cannot convert to i32" ∧
    epsF64 < 1 ∧ ([0, 1, 2] : List ℕ).length % 3 = 0 ∧
    ∀ n ∈ ([0, 1, 2] : List ℕ), n < bigVerts.length := by
  refine ⟨by decide, by decide, by decide, by decide⟩

/-- Claim C7 amended: `Voxels::voxelize` returns normally exactly when the
step exceeds the numeric epsilon, the index list splits into whole face
triples, every face index is a valid vertex index, AND every triangle's
floored/ceiled grid bounds fit in i32; it fails fast (no partial occupancy
set) in every other case. -/
theorem c7_amended_failfast (v : List Vert) (idx : List ℕ) (step epsT : ℚ) :
    (∃ V, voxelizeE v idx step epsT = .ok V) ↔
      (epsT < step ∧ ∃ fs, chunk3 idx = some fs ∧
        (∀ f ∈ fs, f.1 < v.length ∧ f.2.1 < v.length ∧ f.2.2 < v.length) ∧
        ∀ f ∈ fs, gridOk (triOf v f) step = true) := by
  by_cases hstep : step ≤ epsT
  · constructor
    · rintro ⟨V, hV⟩
      unfold voxelizeE at hV
      rw [if_pos hstep] at hV
      cases hV
    · rintro ⟨hlt, -⟩
      exact absurd hstep (not_le.mpr hlt)
  · cases hfs : chunk3 idx with
    | none =>
      constructor
      · rintro ⟨V, hV⟩
        unfold voxelizeE at hV
        rw [if_neg hstep, hfs] at hV
        replace hV : (Except.error "index out of bounds" : Except String Voxels) =
          Except.ok V := hV
        cases hV
      · rintro ⟨-, fs, hfs2, -⟩
        cases hfs2
    | some fs =>
      have hunf := voxelizeE_unfold_matches (v := v) hstep hfs
      cases hb : buildTris v fs with
      | error e =>
        rw [hb] at hunf
        replace hunf : voxelizeE v idx step epsT = Except.error e := hunf
        constructor
        · rintro ⟨V, hV⟩
          rw [hunf] at hV
          cases hV
        · rintro ⟨-, fs2, hfs2, hvalid, -⟩
          injection hfs2 with hfs2
          subst hfs2
          obtain ⟨ts, hts⟩ := (buildTris_ok_iff v fs).mpr hvalid
          rw [hts] at hb
          cases hb
      | ok ts =>
        rw [hb] at hunf
        replace hunf : voxelizeE v idx step epsT =
          (match triCellsE step (epsT * 10) ts with
            | Except.error e => Except.error e
            | Except.ok cells => Except.ok (⟨cells.toFinset, step⟩ : Voxels)) := hunf
        have hvalid := (buildTris_ok_iff v fs).mp ⟨ts, hb⟩
        have hts_eq := buildTris_ok_eq v fs ts hb
        cases hc : triCellsE step (epsT * 10) ts with
        | error e =>
          rw [hc] at hunf
          replace hunf : voxelizeE v idx step epsT = Except.error e := hunf
          constructor
          · rintro ⟨V, hV⟩
            rw [hunf] at hV
            cases hV
          · rintro ⟨-, fs2, hfs2, -, hgrid⟩
            injection hfs2 with hfs2
            subst hfs2
            have hall : ∀ t ∈ ts, gridOk t step = true := by
              rw [hts_eq]
              intro t ht
              obtain ⟨f, hf, rfl⟩ := List.mem_map.mp ht
              exact hgrid f hf
            obtain ⟨cs, hcs⟩ := (triCellsE_ok_iff step (epsT * 10) ts).mpr hall
            rw [hcs] at hc
            cases hc
        | ok cells =>
          rw [hc] at hunf
          replace hunf : voxelizeE v idx step epsT =
            Except.ok (⟨cells.toFinset, step⟩ : Voxels) := hunf
          constructor
          · intro _
            refine ⟨not_le.mp hstep, fs, rfl, hvalid, ?_⟩
            have hall := (triCellsE_ok_iff step (epsT * 10) ts).mp ⟨cells, hc⟩
            intro f hf
            refine hall (triOf v f) ?_
            rw [hts_eq]
            exact List.mem_map_of_mem _ hf
          · intro _
            exact ⟨_, hunf⟩

/-- Claim C7 witness: the amended characterization applied at a concrete valid
mesh, yielding a normal return. -/
theorem c7_amended_failfast_witness : ∃ V, voxelizeE wVerts wl1 1 epsF64 = .ok V :=
  (c7_amended_failfast wVerts wl1 1 epsF64).mpr
    ⟨by decide, wf1, by decide, by decide, by decide⟩

/-- Claim C9: voxelization is order-independent: if two flat index lists chunk
into face-triple lists that are permutations of each other and both runs
succeed, the resulting occupancy sets (and steps) are identical. -/
theorem c9_order_independent (v : List Vert) (l1 l2 : List ℕ) (step epsT : ℚ)
    (f1 f2 : List (ℕ × ℕ × ℕ)) (V1 V2 : Voxels)
    (h1 : chunk3 l1 = some f1) (h2 : chunk3 l2 = some f2) (hp : f1.Perm f2)
    (o1 : voxelizeE v l1 step epsT = .ok V1) (o2 : voxelizeE v l2 step epsT = .ok V2) :
    V1.grid_positions = V2.grid_positions ∧ V1.step = V2.step := by
  obtain ⟨g1, s1⟩ := voxelizeE_ok_eq v l1 step epsT V1 f1 h1 o1
  obtain ⟨g2, s2⟩ := voxelizeE_ok_eq v l2 step epsT V2 f2 h2 o2
  constructor
  · rw [g1, g2]
    exact List.toFinset_eq_of_perm _ _ ((hp.map (triOf v)).flatMap_right _)
  · rw [s1, s2]

/-- Claim C9 witness: two concrete two-face meshes, one the face permutation
of the other, produce the same occupancy set. -/
theorem c9_order_independent_witness :
    occOf (voxelizeE wVerts wl1 1 epsF64) = occOf (voxelizeE wVerts wl2 1 epsF64) := by
  have o1 : voxelizeE wVerts wl1 1 epsF64 = .ok ⟨{(0, 0, 0)}, 1⟩ := by decide
  have o2 : voxelizeE wVerts wl2 1 epsF64 = .ok ⟨{(0, 0, 0)}, 1⟩ := by decide
  have h := (c9_order_independent wVerts wl1 wl2 1 epsF64 wf1 wf2 ⟨{(0, 0, 0)}, 1⟩
    ⟨{(0, 0, 0)}, 1⟩ (by decide) (by decide) (by decide) o1 o2).1
  calc occOf (voxelizeE wVerts wl1 1 epsF64)
      = (⟨{(0, 0, 0)}, 1⟩ : Voxels).grid_positions := by rw [o1]; rfl
    _ = (⟨{(0, 0, 0)}, 1⟩ : Voxels).grid_positions := h
    _ = occOf (voxelizeE wVerts wl2 1 epsF64) := by rw [o2]; rfl

end Meshvox
